import Mathlib

/-!
Verification of the hookmap hotkey engine specification against its source.

The development shallowly embeds the registration layer
(src/hookmap/src/hotkey.rs), the core event handler
(src/hookmap-core/src/common/handler.rs) and the Windows keyboard hook
bridge (src/hookmap-core/src/windows/keyboard.rs).  Parts of the
repository that are referenced by this code but whose files are not in
the source tree (the hotkey storage, the modifier-keys record, the
resolver runtime and the platform constant DW_EXTRA_INFO) are modelled
from the specification and are marked as such in their doc comments.
-/

/-- The button enumeration, translated from the Key enum in
src/hookmap-core/src/common/keyboard.rs.  The hotkey layer's Button type
is the same closed enumeration. -/
inductive Button where
  | Backspace | Tab | Enter | Shift | Ctrl | Alt | CapsLock | Esc
  | Henkan | Muhenkan | Space | PageUp | PageDown | End | Home
  | LeftArrow | UpArrow | RightArrow | DownArrow | PrintScreen
  | Insert | Delete
  | Key0 | Key1 | Key2 | Key3 | Key4 | Key5 | Key6 | Key7 | Key8 | Key9
  | A | B | C | D | E | F | G | H | I | J | K | L | M | N | O | P | Q
  | R | S | T | U | V | W | X | Y | Z
  | LMeta | RMeta | Application
  | Numpad0 | Numpad1 | Numpad2 | Numpad3 | Numpad4 | Numpad5 | Numpad6
  | Numpad7 | Numpad8 | Numpad9
  | NumpadAsterisk | NumpadPlus | NumpadMinus | NumpadDot | NumpadSlash
  | F1 | F2 | F3 | F4 | F5 | F6 | F7 | F8 | F9 | F10 | F11 | F12
  | F13 | F14 | F15 | F16 | F17 | F18 | F19 | F20 | F21 | F22 | F23 | F24
  | Numlock | ScrollLock
  | LShift | RShift | LCtrl | RCtrl | LAlt | RAlt
  | Colon | SemiColon | Comma | Minus | Dot | Slash | At
  | LeftSquareBracket | BackSlashWithVerticalBar | RightSquareBracket
  | Hat | BackSlashWithUnderLine | Eisuu | KatakanaHiragana
  | HannkakuZenkaku
  | Other (code : Nat)

/-- Index of each Button constructor, used only to define decidable
equality without a quadratic case analysis. -/
def Button.toIdx : Button → Nat
  | .Backspace => 0
  | .Tab => 1
  | .Enter => 2
  | .Shift => 3
  | .Ctrl => 4
  | .Alt => 5
  | .CapsLock => 6
  | .Esc => 7
  | .Henkan => 8
  | .Muhenkan => 9
  | .Space => 10
  | .PageUp => 11
  | .PageDown => 12
  | .End => 13
  | .Home => 14
  | .LeftArrow => 15
  | .UpArrow => 16
  | .RightArrow => 17
  | .DownArrow => 18
  | .PrintScreen => 19
  | .Insert => 20
  | .Delete => 21
  | .Key0 => 22
  | .Key1 => 23
  | .Key2 => 24
  | .Key3 => 25
  | .Key4 => 26
  | .Key5 => 27
  | .Key6 => 28
  | .Key7 => 29
  | .Key8 => 30
  | .Key9 => 31
  | .A => 32
  | .B => 33
  | .C => 34
  | .D => 35
  | .E => 36
  | .F => 37
  | .G => 38
  | .H => 39
  | .I => 40
  | .J => 41
  | .K => 42
  | .L => 43
  | .M => 44
  | .N => 45
  | .O => 46
  | .P => 47
  | .Q => 48
  | .R => 49
  | .S => 50
  | .T => 51
  | .U => 52
  | .V => 53
  | .W => 54
  | .X => 55
  | .Y => 56
  | .Z => 57
  | .LMeta => 58
  | .RMeta => 59
  | .Application => 60
  | .Numpad0 => 61
  | .Numpad1 => 62
  | .Numpad2 => 63
  | .Numpad3 => 64
  | .Numpad4 => 65
  | .Numpad5 => 66
  | .Numpad6 => 67
  | .Numpad7 => 68
  | .Numpad8 => 69
  | .Numpad9 => 70
  | .NumpadAsterisk => 71
  | .NumpadPlus => 72
  | .NumpadMinus => 73
  | .NumpadDot => 74
  | .NumpadSlash => 75
  | .F1 => 76
  | .F2 => 77
  | .F3 => 78
  | .F4 => 79
  | .F5 => 80
  | .F6 => 81
  | .F7 => 82
  | .F8 => 83
  | .F9 => 84
  | .F10 => 85
  | .F11 => 86
  | .F12 => 87
  | .F13 => 88
  | .F14 => 89
  | .F15 => 90
  | .F16 => 91
  | .F17 => 92
  | .F18 => 93
  | .F19 => 94
  | .F20 => 95
  | .F21 => 96
  | .F22 => 97
  | .F23 => 98
  | .F24 => 99
  | .Numlock => 100
  | .ScrollLock => 101
  | .LShift => 102
  | .RShift => 103
  | .LCtrl => 104
  | .RCtrl => 105
  | .LAlt => 106
  | .RAlt => 107
  | .Colon => 108
  | .SemiColon => 109
  | .Comma => 110
  | .Minus => 111
  | .Dot => 112
  | .Slash => 113
  | .At => 114
  | .LeftSquareBracket => 115
  | .BackSlashWithVerticalBar => 116
  | .RightSquareBracket => 117
  | .Hat => 118
  | .BackSlashWithUnderLine => 119
  | .Eisuu => 120
  | .KatakanaHiragana => 121
  | .HannkakuZenkaku => 122
  | .Other n => n + 123

/-- Left inverse of Button.toIdx. -/
def Button.ofIdx : Nat → Button
  | 0 => .Backspace
  | 1 => .Tab
  | 2 => .Enter
  | 3 => .Shift
  | 4 => .Ctrl
  | 5 => .Alt
  | 6 => .CapsLock
  | 7 => .Esc
  | 8 => .Henkan
  | 9 => .Muhenkan
  | 10 => .Space
  | 11 => .PageUp
  | 12 => .PageDown
  | 13 => .End
  | 14 => .Home
  | 15 => .LeftArrow
  | 16 => .UpArrow
  | 17 => .RightArrow
  | 18 => .DownArrow
  | 19 => .PrintScreen
  | 20 => .Insert
  | 21 => .Delete
  | 22 => .Key0
  | 23 => .Key1
  | 24 => .Key2
  | 25 => .Key3
  | 26 => .Key4
  | 27 => .Key5
  | 28 => .Key6
  | 29 => .Key7
  | 30 => .Key8
  | 31 => .Key9
  | 32 => .A
  | 33 => .B
  | 34 => .C
  | 35 => .D
  | 36 => .E
  | 37 => .F
  | 38 => .G
  | 39 => .H
  | 40 => .I
  | 41 => .J
  | 42 => .K
  | 43 => .L
  | 44 => .M
  | 45 => .N
  | 46 => .O
  | 47 => .P
  | 48 => .Q
  | 49 => .R
  | 50 => .S
  | 51 => .T
  | 52 => .U
  | 53 => .V
  | 54 => .W
  | 55 => .X
  | 56 => .Y
  | 57 => .Z
  | 58 => .LMeta
  | 59 => .RMeta
  | 60 => .Application
  | 61 => .Numpad0
  | 62 => .Numpad1
  | 63 => .Numpad2
  | 64 => .Numpad3
  | 65 => .Numpad4
  | 66 => .Numpad5
  | 67 => .Numpad6
  | 68 => .Numpad7
  | 69 => .Numpad8
  | 70 => .Numpad9
  | 71 => .NumpadAsterisk
  | 72 => .NumpadPlus
  | 73 => .NumpadMinus
  | 74 => .NumpadDot
  | 75 => .NumpadSlash
  | 76 => .F1
  | 77 => .F2
  | 78 => .F3
  | 79 => .F4
  | 80 => .F5
  | 81 => .F6
  | 82 => .F7
  | 83 => .F8
  | 84 => .F9
  | 85 => .F10
  | 86 => .F11
  | 87 => .F12
  | 88 => .F13
  | 89 => .F14
  | 90 => .F15
  | 91 => .F16
  | 92 => .F17
  | 93 => .F18
  | 94 => .F19
  | 95 => .F20
  | 96 => .F21
  | 97 => .F22
  | 98 => .F23
  | 99 => .F24
  | 100 => .Numlock
  | 101 => .ScrollLock
  | 102 => .LShift
  | 103 => .RShift
  | 104 => .LCtrl
  | 105 => .RCtrl
  | 106 => .LAlt
  | 107 => .RAlt
  | 108 => .Colon
  | 109 => .SemiColon
  | 110 => .Comma
  | 111 => .Minus
  | 112 => .Dot
  | 113 => .Slash
  | 114 => .At
  | 115 => .LeftSquareBracket
  | 116 => .BackSlashWithVerticalBar
  | 117 => .RightSquareBracket
  | 118 => .Hat
  | 119 => .BackSlashWithUnderLine
  | 120 => .Eisuu
  | 121 => .KatakanaHiragana
  | 122 => .HannkakuZenkaku
  | n => .Other (n - 123)

set_option maxRecDepth 2000 in
theorem Button.ofIdx_toIdx : ∀ b : Button, Button.ofIdx b.toIdx = b := by
  intro b
  cases b <;> rfl

instance : DecidableEq Button := fun a b =>
  if h : a.toIdx = b.toIdx then
    Decidable.isTrue (by rw [← Button.ofIdx_toIdx a, ← Button.ofIdx_toIdx b, h])
  else
    Decidable.isFalse (fun he => h (congrArg Button.toIdx he))

/-- ButtonAction from the core library: Press or Release. -/
inductive ButtonAction where
  | Press
  | Release
  deriving DecidableEq

/-- EventBlock from src/hookmap-core/src/common/event.rs: whether the
generated event is passed to the next program. -/
inductive EventBlock where
  | Block
  | Unblock
  deriving DecidableEq

/-- Default EventBlock from src/hookmap-core/src/common/event.rs: Unblock
unless the build feature block-input-event is enabled; this embedding
models the default build. -/
def EventBlock.dflt : EventBlock := EventBlock.Unblock

/-- NativeEventOperation used by the hotkey layer: Block or Dispatch. -/
inductive NativeEventOperation where
  | Block
  | Dispatch
  deriving DecidableEq

/-- Modelled from the spec: the default NativeEventOperation is
platform-configured, effectively Dispatch unless a build-time option
selects Block (spec section 6); this embedding models the default build,
matching the EventBlock default in src/hookmap-core/src/common/event.rs. -/
def NativeEventOperation.dflt : NativeEventOperation := NativeEventOperation.Dispatch

/-- ButtonEvent from src/hookmap-core/src/common/event.rs. -/
structure ButtonEvent where
  target : Button
  action : ButtonAction
  deriving DecidableEq

/-!
## Core event handler

Embedding of src/hookmap-core/src/common/handler.rs.
-/

/-- An EventCallback from the EventCallback trait in
src/hookmap-core/src/common/handler.rs: a call body (represented
symbolically by a number, since the handler never inspects it, it only
schedules it) together with the EventBlock returned by its
get_event_block method. -/
structure EventCallback where
  callBody : Nat
  event_block : EventBlock
  deriving DecidableEq

/-- An EventCallbackGenerator from handler.rs: a function producing a
boxed EventCallback from an event. -/
def EventCallbackGenerator (E : Type) : Type := E → EventCallback

/-- The state of an EventHandler from handler.rs: the mutex-guarded
optional generator. -/
def EventHandlerState (E : Type) : Type := Option (EventCallbackGenerator E)

/-- EventHandler.register_handler from handler.rs: Option.insert stores
the new generator, discarding any previously registered one. -/
def register_handler {E : Type} (generator : EventCallbackGenerator E)
    (_s : EventHandlerState E) : EventHandlerState E :=
  some generator

/-- The result of EventHandler.emit: the EventBlock returned to the
caller and the callback handed to thread spawn; emit itself does not run
the callback. -/
structure EmitResult where
  event_block : EventBlock
  spawned : Option EventCallback

/-- EventHandler.emit from handler.rs: when a generator is registered,
build the event callback from the event, read its EventBlock, spawn the
callback on another thread and return the EventBlock; when no generator
is registered, return Unblock. -/
def emit {E : Type} (s : EventHandlerState E) (event : E) : EmitResult :=
  match s with
  | some generator =>
    let event_callback := generator event
    { event_block := event_callback.event_block, spawned := some event_callback }
  | none => { event_block := EventBlock.Unblock, spawned := none }

/-!
## Windows keyboard hook bridge

Embedding of src/hookmap-core/src/windows/keyboard.rs.
-/

/-- Modelled from the spec: the origin-tag constant DW_EXTRA_INFO is
defined in the windows module root, which is not among the source files.
The spec fixes only that it is a non-zero platform sentinel (spec
section 6, Origin tag format); it is modelled as 1. -/
def DW_EXTRA_INFO : Nat := 1

/-- The KEYEVENTF_KEYUP flag of the Windows API. -/
def KEYEVENTF_KEYUP : Nat := 2

/-- The fields of the Windows KBDLLHOOKSTRUCT read by hook_proc. -/
structure KbdllHookStruct where
  vkCode : Nat
  flags : Nat
  dwExtraInfo : Nat
  deriving DecidableEq

/-- The fields of the Windows KEYBDINPUT filled by send_key_input. -/
structure KeybdInput where
  wVk : Nat
  wScan : Nat
  dwFlags : Nat
  time : Nat
  dwExtraInfo : Nat
  deriving DecidableEq

/-- send_key_input from windows/keyboard.rs: builds the KEYBDINPUT
emitted through SendInput, always stamping dwExtraInfo with
DW_EXTRA_INFO.  The key-code translation table (conversion submodule,
not among the source files; out of scope per spec section 1) is passed
as the function vkOfKey. -/
def send_key_input (vkOfKey : Button → Nat) (key : Button) (flags : Nat) : KeybdInput :=
  { wVk := vkOfKey key, wScan := 0, dwFlags := flags, time := 0,
    dwExtraInfo := DW_EXTRA_INFO }

/-- The verdict a hook procedure returns to the OS: 1 (event suppressed)
or the result of CallNextHookEx (event delivered downstream). -/
inductive HookProcVerdict where
  | blocked
  | passedToNextHook
  deriving DecidableEq

/-- The observable outcome of one hook_proc call: the verdict returned
to the OS, the event handed to the event handler (none when the call was
short-circuited, in which case no rule matching and no state mutation
can occur), and the callback scheduled by emit. -/
structure HookProcOutcome where
  verdict : HookProcVerdict
  emitted : Option ButtonEvent
  spawned : Option EventCallback

/-- hook_proc from windows/keyboard.rs: events whose dwExtraInfo carries
the origin tag are passed to the next hook without consulting the
handler; otherwise the key and action are decoded, the handler's emit is
invoked, and its EventBlock decides the verdict.  The key-code
translation is passed as keyOfVk (conversion submodule not among the
source files). -/
def hook_proc (keyOfVk : Nat → Button) (handler : EventHandlerState ButtonEvent)
    (info : KbdllHookStruct) : HookProcOutcome :=
  if info.dwExtraInfo &&& DW_EXTRA_INFO ≠ 0 then
    { verdict := HookProcVerdict.passedToNextHook, emitted := none, spawned := none }
  else
    let target := keyOfVk info.vkCode
    let action := if info.flags >>> 7 = 0 then ButtonAction.Press else ButtonAction.Release
    let event : ButtonEvent := { target := target, action := action }
    let r := emit handler event
    match r.event_block with
    | EventBlock.Block =>
      { verdict := HookProcVerdict.blocked, emitted := some event, spawned := r.spawned }
    | EventBlock.Unblock =>
      { verdict := HookProcVerdict.passedToNextHook, emitted := some event, spawned := r.spawned }

/-- The KBDLLHOOKSTRUCT the OS delivers back to the hook when an
emission produced by send_key_input loops back: the virtual key code and
the extra-info word flow through unchanged, the flags are chosen by the
OS. -/
def loopback (input : KeybdInput) (osFlags : Nat) : KbdllHookStruct :=
  { vkCode := input.wVk, flags := osFlags, dwExtraInfo := input.dwExtraInfo }

/-!
## Hotkey registration layer

Embedding of src/hookmap/src/hotkey.rs, src/hookmap/src/macros.rs and
src/hookmap/src/hotkey/button_arg.rs.  The submodules hook.rs,
modifier_keys.rs and storage.rs of the hotkey module are not among the
source files; the definitions below that come from them are modelled
from the spec and from their uses in hotkey.rs, and say so in their doc
comments.
-/

/-- ButtonArgElementTag from src/hookmap/src/macros.rs: whether a button
element of an argument list is meant directly or as an inversion. -/
inductive ButtonArgElementTag where
  | Direct
  | Inversion
  deriving DecidableEq

/-- ButtonArgElement from src/hookmap/src/macros.rs. -/
structure ButtonArgElement where
  tag : ButtonArgElementTag
  button : Button
  deriving DecidableEq

/-- ButtonArgElement.direct from src/hookmap/src/macros.rs. -/
def ButtonArgElement.direct (button : Button) : ButtonArgElement :=
  { tag := ButtonArgElementTag.Direct, button := button }

/-- ButtonArgElement.inversion from src/hookmap/src/macros.rs. -/
def ButtonArgElement.inversion (button : Button) : ButtonArgElement :=
  { tag := ButtonArgElementTag.Inversion, button := button }

/-- ButtonArgElement.invert from src/hookmap/src/macros.rs. -/
def ButtonArgElement.invert (e : ButtonArgElement) : ButtonArgElement :=
  match e.tag with
  | ButtonArgElementTag.Direct => ButtonArgElement.inversion e.button
  | ButtonArgElementTag.Inversion => ButtonArgElement.direct e.button

/-- A ButtonArg from src/hookmap/src/macros.rs is a vector of elements;
registration methods iterate over it in order. -/
def ButtonArg : Type := List ButtonArgElement

/-- Modelled from the spec: ModifierKeys (the hotkey submodule
modifier_keys.rs is not among the source files).  Per the spec's
ModifierPredicate it is a pair of button sets, pressed-required and
released-required; the field names pressed and released follow their
uses in src/hookmap/src/hotkey.rs. -/
structure ModifierKeys where
  pressed : List Button
  released : List Button
  deriving DecidableEq

/-- Modelled from the spec: satisfaction of a ModifierPredicate against
the tracker, section 4.2 of the spec: every pressed-required button is
currently pressed and no released-required button is. -/
def ModifierKeys.is_satisfied (m : ModifierKeys) (tracker : List Button) : Bool :=
  m.pressed.all (fun b => decide (b ∈ tracker))
    && m.released.all (fun b => !(decide (b ∈ tracker)))

/-- Symbolic representation of a HookProcess closure stored in hooks
(the process arguments of the registration methods in
src/hookmap/src/hotkey.rs): a user callback identified by a number, the
activation closure storing true into a shared latch (identified by a
number), or the empty closure built by disable. -/
inductive HookProcess where
  | callback (id : Nat)
  | setLatch (latch : Nat)
  | noop
  deriving DecidableEq

/-- Modelled from the spec: HotkeyCondition (the hotkey submodule
hook.rs is not among the source files).  Per spec section 3: Any,
Modifier or Activation; the constructor names follow their uses in
src/hookmap/src/hotkey.rs.  The boolean state of an Activation latch
lives in the resolver state and the latch is identified by a number. -/
inductive HotkeyCondition where
  | Any
  | Modifier (m : ModifierKeys)
  | Activation (latch : Nat)
  deriving DecidableEq

/-- Modelled from the spec: a HotkeyHook record (hook.rs not among the
source files), per spec section 3 and the constructor calls
HotkeyHook.new(condition, process, native_event_operation) in
src/hookmap/src/hotkey.rs. -/
structure HotkeyHook where
  condition : HotkeyCondition
  process : HookProcess
  native_event_operation : NativeEventOperation
  deriving DecidableEq

/-- Modelled from the spec: a RemapHook record (hook.rs not among the
source files), per the constructor calls
RemapHook.new(modifier_keys, behavior) in src/hookmap/src/hotkey.rs. -/
structure RemapHook where
  modifier_keys : ModifierKeys
  behavior : Button
  deriving DecidableEq

/-- Modelled from the spec: a MouseHook record (hook.rs not among the
source files), per the constructor calls
MouseHook.new(modifier_keys, process, native_event_operation) in
src/hookmap/src/hotkey.rs. -/
structure MouseHook where
  modifier_keys : ModifierKeys
  process : HookProcess
  native_event_operation : NativeEventOperation
  deriving DecidableEq

/-- Modelled from the spec: HotkeyStorage (the hotkey submodule
storage.rs is not among the source files).  Per spec section 4.1 it
keeps per-kind collections of hooks keyed by button, append-only, with
insertion order preserved; the per-button keying is represented by
association lists. -/
structure HotkeyStorage where
  remap : List (Button × RemapHook)
  hotkey_on_press : List (Button × HotkeyHook)
  hotkey_on_release : List (Button × HotkeyHook)
  mouse_wheel : List MouseHook
  mouse_cursor : List MouseHook
  deriving DecidableEq

/-- The empty HotkeyStorage (Default). -/
def HotkeyStorage.empty : HotkeyStorage :=
  { remap := [], hotkey_on_press := [], hotkey_on_release := [],
    mouse_wheel := [], mouse_cursor := [] }

/-- Modelled from the spec: storage registration appends, preserving
order (spec section 4.1). -/
def register_remap (button : Button) (hook : RemapHook) (st : HotkeyStorage) : HotkeyStorage :=
  { st with remap := st.remap ++ [(button, hook)] }

/-- Modelled from the spec: storage registration appends, preserving
order (spec section 4.1). -/
def register_hotkey_on_press (button : Button) (hook : HotkeyHook) (st : HotkeyStorage) : HotkeyStorage :=
  { st with hotkey_on_press := st.hotkey_on_press ++ [(button, hook)] }

/-- Modelled from the spec: storage registration appends, preserving
order (spec section 4.1). -/
def register_hotkey_on_release (button : Button) (hook : HotkeyHook) (st : HotkeyStorage) : HotkeyStorage :=
  { st with hotkey_on_release := st.hotkey_on_release ++ [(button, hook)] }

/-- Modelled from the spec: hooks registered for a button, in
registration order (spec section 4.1 lookup operations). -/
def remaps_for (st : HotkeyStorage) (button : Button) : List RemapHook :=
  (st.remap.filter (fun p => decide (p.1 = button))).map Prod.snd

/-- Modelled from the spec: hooks registered for a button, in
registration order (spec section 4.1 lookup operations). -/
def on_press_for (st : HotkeyStorage) (button : Button) : List HotkeyHook :=
  (st.hotkey_on_press.filter (fun p => decide (p.1 = button))).map Prod.snd

/-- Modelled from the spec: hooks registered for a button, in
registration order (spec section 4.1 lookup operations). -/
def on_release_for (st : HotkeyStorage) (button : Button) : List HotkeyHook :=
  (st.hotkey_on_release.filter (fun p => decide (p.1 = button))).map Prod.snd

/-- The modifier keys of a freshly created Hotkey registrar
(Default::default() in src/hookmap/src/hotkey.rs): empty. -/
def Hotkey.modifier_keys : ModifierKeys := { pressed := [], released := [] }

/-- Shared body of Hotkey.remap and ModifierHotkey.remap from
src/hookmap/src/hotkey.rs: iterate over the argument elements; an
Inversion tag panics (the boolean component becomes true and iteration
stops, storage mutations made so far are kept); a Direct tag registers
RemapHook.new(modifier_keys, behavior) for the element's button. -/
def remapRun (modifier_keys : ModifierKeys) (behavior : Button) :
    List ButtonArgElement → HotkeyStorage → HotkeyStorage × Bool
  | [], st => (st, false)
  | arg :: rest, st =>
    match arg.tag with
    | ButtonArgElementTag.Inversion => (st, true)
    | ButtonArgElementTag.Direct =>
      remapRun modifier_keys behavior rest
        (register_remap arg.button { modifier_keys := modifier_keys, behavior := behavior } st)

/-- Hotkey.remap from src/hookmap/src/hotkey.rs: remapRun with the
registrar's default (empty) modifier keys.  The boolean result is true
iff the call panicked. -/
def Hotkey.remap (target : List ButtonArgElement) (behavior : Button)
    (st : HotkeyStorage) : HotkeyStorage × Bool :=
  remapRun Hotkey.modifier_keys behavior target st

/-- Hotkey.on_press from src/hookmap/src/hotkey.rs: for every argument
element build a hook with condition Any, the given process and the
default native event operation; a Direct element registers it in the
on-press store, an Inversion element registers it in the on-release
store. -/
def Hotkey.on_press (target : List ButtonArgElement) (process : HookProcess)
    (st : HotkeyStorage) : HotkeyStorage :=
  target.foldl (fun s arg =>
    let hook : HotkeyHook :=
      { condition := HotkeyCondition.Any, process := process,
        native_event_operation := NativeEventOperation.dflt }
    match arg.tag with
    | ButtonArgElementTag.Direct => register_hotkey_on_press arg.button hook s
    | ButtonArgElementTag.Inversion => register_hotkey_on_release arg.button hook s) st

/-- Hotkey.on_release from src/hookmap/src/hotkey.rs: as Hotkey.on_press
with the two stores exchanged: Direct goes to the on-release store,
Inversion to the on-press store. -/
def Hotkey.on_release (target : List ButtonArgElement) (process : HookProcess)
    (st : HotkeyStorage) : HotkeyStorage :=
  target.foldl (fun s arg =>
    let hook : HotkeyHook :=
      { condition := HotkeyCondition.Any, process := process,
        native_event_operation := NativeEventOperation.dflt }
    match arg.tag with
    | ButtonArgElementTag.Direct => register_hotkey_on_release arg.button hook s
    | ButtonArgElementTag.Inversion => register_hotkey_on_press arg.button hook s) st

/-- Hotkey.disable from src/hookmap/src/hotkey.rs: builds the empty
closure and calls self.on_press with it twice (it never calls
self.on_release). -/
def Hotkey.disable (target : List ButtonArgElement) (st : HotkeyStorage) : HotkeyStorage :=
  Hotkey.on_press target HookProcess.noop (Hotkey.on_press target HookProcess.noop st)

/-- A ModifierHotkey registrar from src/hookmap/src/hotkey.rs: the
scoped modifier keys and the scoped native event operation (the storage
reference is passed explicitly to each method here). -/
structure ModifierHotkey where
  modifier_keys : ModifierKeys
  native_event_operation : NativeEventOperation
  deriving DecidableEq

/-- ModifierHotkey.remap from src/hookmap/src/hotkey.rs: remapRun with
the registrar's modifier keys. -/
def ModifierHotkey.remap (mh : ModifierHotkey) (target : List ButtonArgElement)
    (behavior : Button) (st : HotkeyStorage) : HotkeyStorage × Bool :=
  remapRun mh.modifier_keys behavior target st

/-- ModifierHotkey.on_press from src/hookmap/src/hotkey.rs: for every
argument element build a hook with condition Modifier(self.modifier_keys),
the given process and self.native_event_operation; a Direct element
registers it in the on-press store, an Inversion element in the
on-release store. -/
def ModifierHotkey.on_press (mh : ModifierHotkey) (target : List ButtonArgElement)
    (process : HookProcess) (st : HotkeyStorage) : HotkeyStorage :=
  target.foldl (fun s arg =>
    let hook : HotkeyHook :=
      { condition := HotkeyCondition.Modifier mh.modifier_keys, process := process,
        native_event_operation := mh.native_event_operation }
    match arg.tag with
    | ButtonArgElementTag.Direct => register_hotkey_on_press arg.button hook s
    | ButtonArgElementTag.Inversion => register_hotkey_on_release arg.button hook s) st

/-- The inactivation hook built inside ModifierHotkey.on_release: the
user process guarded by the Activation condition on the shared latch,
with the registrar's native event operation. -/
def inactivationHook (mh : ModifierHotkey) (is_active : Nat) (process : HookProcess) : HotkeyHook :=
  { condition := HotkeyCondition.Activation is_active, process := process,
    native_event_operation := mh.native_event_operation }

/-- The activation hook built inside ModifierHotkey.on_release: the
latch-setting closure guarded by the Modifier condition, with native
event operation Dispatch. -/
def activationHook (mh : ModifierHotkey) (is_active : Nat) : HotkeyHook :=
  { condition := HotkeyCondition.Modifier mh.modifier_keys,
    process := HookProcess.setLatch is_active,
    native_event_operation := NativeEventOperation.Dispatch }

/-- ModifierHotkey.on_release from src/hookmap/src/hotkey.rs.  One fresh
shared latch is_active (created by Arc::default, initially false) serves
the whole call.  For every argument element: a Direct element registers
the activation hook for the element's button in the on-press store and
the inactivation hook in the on-release store; an Inversion element does
the converse.  Afterwards one inactivation hook is registered in the
on-release store for every button in modifier_keys.pressed and one in
the on-press store for every button in modifier_keys.released. -/
def ModifierHotkey.on_release (mh : ModifierHotkey) (is_active : Nat)
    (target : List ButtonArgElement) (process : HookProcess)
    (st : HotkeyStorage) : HotkeyStorage :=
  let st1 := target.foldl (fun s arg =>
    match arg.tag with
    | ButtonArgElementTag.Direct =>
      register_hotkey_on_release arg.button (inactivationHook mh is_active process)
        (register_hotkey_on_press arg.button (activationHook mh is_active) s)
    | ButtonArgElementTag.Inversion =>
      register_hotkey_on_press arg.button (inactivationHook mh is_active process)
        (register_hotkey_on_release arg.button (activationHook mh is_active) s)) st
  let st2 := mh.modifier_keys.pressed.foldl (fun s b =>
    register_hotkey_on_release b (inactivationHook mh is_active process) s) st1
  mh.modifier_keys.released.foldl (fun s b =>
    register_hotkey_on_press b (inactivationHook mh is_active process) s) st2

/-- ModifierHotkey.disable from src/hookmap/src/hotkey.rs: builds the
empty closure and calls self.on_press with it twice (it never calls
self.on_release). -/
def ModifierHotkey.disable (mh : ModifierHotkey) (target : List ButtonArgElement)
    (st : HotkeyStorage) : HotkeyStorage :=
  ModifierHotkey.on_press mh target HookProcess.noop
    (ModifierHotkey.on_press mh target HookProcess.noop st)

/-- Hotkey.change_native_event_operation from src/hookmap/src/hotkey.rs:
a derived registrar with the registrar's (default, empty) modifier keys
and the given operation. -/
def Hotkey.change_native_event_operation (operation : NativeEventOperation) : ModifierHotkey :=
  { modifier_keys := Hotkey.modifier_keys, native_event_operation := operation }

/-!
## Resolver

Modelled from the spec, section 4.3: the runtime that drives the storage
(src/hookmap/src/runtime.rs and the fetch side of storage.rs are not
among the source files).  The modifier tracker is the list of currently
pressed buttons, the latch state the list of currently-true latches.
-/

/-- Modelled from the spec: the tracker update tracker.set(button,
action), section 4.2; a Press inserts the button (idempotently), a
Release removes it. -/
def trackerSet (tracker : List Button) (button : Button) : ButtonAction → List Button
  | ButtonAction.Press => if button ∈ tracker then tracker else tracker ++ [button]
  | ButtonAction.Release => tracker.filter (fun x => decide (x ≠ button))

/-- Modelled from the spec: one scan over a hook list in registration
order (spec section 4.3 step 4).  Returns the matched hooks and the
latch state after the scan: an Any condition always matches, a Modifier
condition matches iff satisfied against the tracker, and an Activation
condition matches iff its latch is true, resetting the latch as part of
firing (one-shot). -/
def scanHooks : List HotkeyHook → List Button → List Nat → List HotkeyHook × List Nat
  | [], _, latches => ([], latches)
  | h :: rest, tracker, latches =>
    match h.condition with
    | HotkeyCondition.Any =>
      let r := scanHooks rest tracker latches
      (h :: r.1, r.2)
    | HotkeyCondition.Modifier m =>
      if m.is_satisfied tracker then
        let r := scanHooks rest tracker latches
        (h :: r.1, r.2)
      else scanHooks rest tracker latches
    | HotkeyCondition.Activation l =>
      if l ∈ latches then
        let r := scanHooks rest tracker (latches.erase l)
        (h :: r.1, r.2)
      else scanHooks rest tracker latches

/-- The hooks of a list matched against a tracker and latch state. -/
def matchedHooks (hooks : List HotkeyHook) (tracker : List Button) (latches : List Nat) :
    List HotkeyHook :=
  (scanHooks hooks tracker latches).1

/-- Modelled from the spec: the verdict combination rule of section 4.3
step 5: Block if any matched hook's operation is Block, else Dispatch
(in particular Dispatch when no hook matched). -/
def combineOps (matched : List HotkeyHook) : NativeEventOperation :=
  if matched.any (fun h => decide (h.native_event_operation = NativeEventOperation.Block))
  then NativeEventOperation.Block
  else NativeEventOperation.Dispatch

/-- The verdict contributed by steps 4 and 5 of the resolver for one
hook list. -/
def hotkeyVerdict (hooks : List HotkeyHook) (tracker : List Button) (latches : List Nat) :
    NativeEventOperation :=
  combineOps (matchedHooks hooks tracker latches)

/-- Modelled from the spec: firing the matched hooks applies their
latch-setting actions to the latch state (the activation hooks of the
latch protocol, section 4.3). -/
def applyLatchActions (matched : List HotkeyHook) (latches : List Nat) : List Nat :=
  matched.foldl (fun acc h =>
    match h.process with
    | HookProcess.setLatch l => if l ∈ acc then acc else acc ++ [l]
    | _ => acc) latches

/-- A ButtonEvent as the resolver sees it, with the injected flag
derived from the origin tag (spec section 3). -/
structure SpecButtonEvent where
  target : Button
  action : ButtonAction
  injected : Bool
  deriving DecidableEq

/-- What one resolver step returns and leaves behind: the verdict handed
to the OS, the tracker and latch state after the event, the processes
scheduled for asynchronous execution, and the events synthesised through
the injector by firing remaps. -/
structure ResolveResult where
  verdict : NativeEventOperation
  tracker : List Button
  latches : List Nat
  scheduled : List HookProcess
  synthesized : List ButtonEvent
  deriving DecidableEq

/-- Modelled from the spec: the resolver algorithm for a ButtonEvent,
section 4.3 steps 1 to 5.  An injected event returns Dispatch at once,
touching nothing.  Otherwise the tracker is updated, satisfied remaps
fire (synthesising the behavior button with the same action, forcing
Block and short-circuiting the hotkey scan), and failing that the
on-press or on-release hooks for the button are scanned and their
operations combined. -/
def resolveButtonEvent (st : HotkeyStorage) (tracker : List Button) (latches : List Nat)
    (e : SpecButtonEvent) : ResolveResult :=
  if e.injected then
    { verdict := NativeEventOperation.Dispatch, tracker := tracker, latches := latches,
      scheduled := [], synthesized := [] }
  else
    let tracker1 := trackerSet tracker e.target e.action
    let firedRemaps := (remaps_for st e.target).filter
      (fun h => h.modifier_keys.is_satisfied tracker1)
    match firedRemaps with
    | _ :: _ =>
      { verdict := NativeEventOperation.Block, tracker := tracker1, latches := latches,
        scheduled := [],
        synthesized := firedRemaps.map (fun r => { target := r.behavior, action := e.action }) }
    | [] =>
      let hooks := match e.action with
        | ButtonAction.Press => on_press_for st e.target
        | ButtonAction.Release => on_release_for st e.target
      let scan := scanHooks hooks tracker1 latches
      { verdict := combineOps scan.1, tracker := tracker1,
        latches := applyLatchActions scan.1 scan.2,
        scheduled := scan.1.map HotkeyHook.process, synthesized := [] }

/-!
## Theorems
-/

/-- A fold registering one constant hook in the on-release store per
button appends the corresponding pairs, leaving other stores as they
were. -/
theorem foldl_register_release_const (bs : List Button) (h : HotkeyHook) (st : HotkeyStorage) :
    bs.foldl (fun s b => register_hotkey_on_release b h s) st =
    { st with hotkey_on_release := st.hotkey_on_release ++ bs.map (fun b => (b, h)) } := by
  induction bs generalizing st with
  | nil => simp
  | cons b rest ih =>
    rw [List.foldl_cons, ih]
    simp [register_hotkey_on_release]

/-- A fold registering one constant hook in the on-press store per
button appends the corresponding pairs, leaving other stores as they
were. -/
theorem foldl_register_press_const (bs : List Button) (h : HotkeyHook) (st : HotkeyStorage) :
    bs.foldl (fun s b => register_hotkey_on_press b h s) st =
    { st with hotkey_on_press := st.hotkey_on_press ++ bs.map (fun b => (b, h)) } := by
  induction bs generalizing st with
  | nil => simp
  | cons b rest ih =>
    rw [List.foldl_cons, ih]
    simp [register_hotkey_on_press]

/-- Behaviour of remapRun on an argument list containing an Inversion
element: it panics, and the remap store receives exactly one hook per
Direct element preceding the first Inversion element. -/
theorem remapRun_inversion (mk : ModifierKeys) (behavior : Button) :
    ∀ (args : List ButtonArgElement) (st : HotkeyStorage),
    ButtonArgElementTag.Inversion ∈ args.map ButtonArgElement.tag →
    (remapRun mk behavior args st).2 = true
    ∧ (remapRun mk behavior args st).1.remap =
      st.remap ++ (args.takeWhile
          (fun a => decide (a.tag = ButtonArgElementTag.Direct))).map
        (fun a => (a.button, { modifier_keys := mk, behavior := behavior })) := by
  intro args
  induction args with
  | nil => intro st hmem; simp at hmem
  | cons a rest ih =>
    intro st hmem
    obtain ⟨tag, button⟩ := a
    cases tag with
    | Inversion =>
      refine ⟨rfl, ?_⟩
      simp [remapRun, List.takeWhile]
    | Direct =>
      have hmem' : ButtonArgElementTag.Inversion ∈ rest.map ButtonArgElement.tag := by
        simpa using hmem
      obtain ⟨h2, h1⟩ := ih (register_remap button
        { modifier_keys := mk, behavior := behavior } st) hmem'
      refine ⟨h2, ?_⟩
      simp only [remapRun] at h1 ⊢
      rw [h1]
      simp [register_remap, List.takeWhile]

/-- Claim C1: the claim states that registering disable(B) is equivalent
to registering an empty-callback on_press hook and an empty-callback
on_release hook for B with NativeEventOperation Block, so that both
Press(B) and Release(B) yield Block.  The code contradicts this: both
Hotkey.disable and ModifierHotkey.disable call on_press twice and never
on_release, and Hotkey.disable registers with the default operation
(Dispatch in a default build), not Block.  This theorem evaluates the
code at the failing input disable(F1): no on-release hook exists, the
two registered hooks sit in the on-press store with operation Dispatch,
and the verdict for Release(F1) is Dispatch, not Block; the same holds
for ModifierHotkey.disable even when the registrar's operation is
Block. -/
theorem disable_registers_on_press_twice_and_release_event_dispatches :
    (Hotkey.disable [ButtonArgElement.direct Button.F1] HotkeyStorage.empty).hotkey_on_release = []
    ∧ (Hotkey.disable [ButtonArgElement.direct Button.F1] HotkeyStorage.empty).hotkey_on_press =
      [(Button.F1, { condition := HotkeyCondition.Any, process := HookProcess.noop,
                     native_event_operation := NativeEventOperation.Dispatch }),
       (Button.F1, { condition := HotkeyCondition.Any, process := HookProcess.noop,
                     native_event_operation := NativeEventOperation.Dispatch })]
    ∧ (resolveButtonEvent (Hotkey.disable [ButtonArgElement.direct Button.F1] HotkeyStorage.empty)
        [] [] { target := Button.F1, action := ButtonAction.Release, injected := false }).verdict
      = NativeEventOperation.Dispatch
    ∧ (ModifierHotkey.disable
        { modifier_keys := { pressed := [], released := [] },
          native_event_operation := NativeEventOperation.Block }
        [ButtonArgElement.direct Button.F1] HotkeyStorage.empty).hotkey_on_release = []
    ∧ (resolveButtonEvent
        (ModifierHotkey.disable
          { modifier_keys := { pressed := [], released := [] },
            native_event_operation := NativeEventOperation.Block }
          [ButtonArgElement.direct Button.F1] HotkeyStorage.empty)
        [] [] { target := Button.F1, action := ButtonAction.Release, injected := false }).verdict
      = NativeEventOperation.Dispatch :=
  ⟨rfl, rfl, rfl, rfl, rfl⟩

/-- Claim C2: an inbound event carrying the engine's origin tag is
returned to the next hook (Dispatch) unconditionally by hook_proc
without invoking the event handler, hence no rule is matched and no
callback is invoked for it; and the resolver leaves the tracker and
latch state untouched for an injected event, returning Dispatch with
nothing scheduled. -/
theorem injected_events_short_circuit :
    ∀ (keyOfVk : Nat → Button) (handler : EventHandlerState ButtonEvent)
      (info : KbdllHookStruct) (st : HotkeyStorage) (tracker : List Button)
      (latches : List Nat) (target : Button) (action : ButtonAction),
    info.dwExtraInfo &&& DW_EXTRA_INFO ≠ 0 →
    hook_proc keyOfVk handler info =
      { verdict := HookProcVerdict.passedToNextHook, emitted := none, spawned := none }
    ∧ resolveButtonEvent st tracker latches
        { target := target, action := action, injected := true } =
      { verdict := NativeEventOperation.Dispatch, tracker := tracker, latches := latches,
        scheduled := [], synthesized := [] } := by
  intro keyOfVk handler info st tracker latches target action htag
  refine ⟨?_, rfl⟩
  simp [hook_proc, htag]

/-- Witness for C2 at a concrete tagged event. -/
theorem injected_events_short_circuit_witness :
    hook_proc (fun _ => Button.A) none
      { vkCode := 65, flags := 0, dwExtraInfo := 1 } =
      { verdict := HookProcVerdict.passedToNextHook, emitted := none, spawned := none }
    ∧ resolveButtonEvent HotkeyStorage.empty [] []
        { target := Button.A, action := ButtonAction.Press, injected := true } =
      { verdict := NativeEventOperation.Dispatch, tracker := [], latches := [],
        scheduled := [], synthesized := [] } :=
  injected_events_short_circuit (fun _ => Button.A) none
    { vkCode := 65, flags := 0, dwExtraInfo := 1 }
    HotkeyStorage.empty [] [] Button.A ButtonAction.Press (by decide)

/-- Claim C3: the single verdict for an event is Block iff at least one
matched hook's operation is Block, and in particular Dispatch when no
hook matches. -/
theorem verdict_block_iff_matched_block :
    ∀ (hooks : List HotkeyHook) (tracker : List Button) (latches : List Nat),
    (matchedHooks hooks tracker latches = [] →
      hotkeyVerdict hooks tracker latches = NativeEventOperation.Dispatch)
    ∧ (hotkeyVerdict hooks tracker latches = NativeEventOperation.Block ↔
      ∃ h ∈ matchedHooks hooks tracker latches,
        h.native_event_operation = NativeEventOperation.Block) := by
  intro hooks tracker latches
  constructor
  · intro hm
    simp [hotkeyVerdict, hm, combineOps]
  · constructor
    · intro hv
      by_cases hb : (matchedHooks hooks tracker latches).any
          (fun h => decide (h.native_event_operation = NativeEventOperation.Block)) = true
      · simpa [List.any_eq_true, decide_eq_true_eq] using hb
      · simp [hotkeyVerdict, combineOps, hb] at hv
    · intro hex
      have hb : (matchedHooks hooks tracker latches).any
          (fun h => decide (h.native_event_operation = NativeEventOperation.Block)) = true := by
        simpa [List.any_eq_true, decide_eq_true_eq] using hex
      simp [hotkeyVerdict, combineOps, hb]

/-- Witness for C3: with no hooks at all, nothing matches and the
verdict is Dispatch. -/
theorem verdict_block_iff_matched_block_witness :
    hotkeyVerdict [] [] [] = NativeEventOperation.Dispatch :=
  (verdict_block_iff_matched_block [] [] []).1 rfl

/-- Claim C4: under a registrar with modifier keys M, registering
on_release for a Direct-tagged button B with a user callback installs
exactly: the activation hook for B in the on-press store (condition
Modifier(M), latch-setting process, operation Dispatch), the
inactivation hook for B in the on-release store (condition
Activation(latch), the user callback, the registrar's operation), one
inactivation hook in the on-release store per button of M.pressed, and
one inactivation hook in the on-press store per button of M.released;
no other store changes. -/
theorem modifier_on_release_installs_three_hook_groups :
    ∀ (mh : ModifierHotkey) (is_active c : Nat) (btn : Button) (st : HotkeyStorage),
    ModifierHotkey.on_release mh is_active [ButtonArgElement.direct btn]
      (HookProcess.callback c) st =
    { st with
      hotkey_on_press := st.hotkey_on_press ++ [(btn, activationHook mh is_active)]
        ++ mh.modifier_keys.released.map
          (fun b => (b, inactivationHook mh is_active (HookProcess.callback c))),
      hotkey_on_release := st.hotkey_on_release
        ++ [(btn, inactivationHook mh is_active (HookProcess.callback c))]
        ++ mh.modifier_keys.pressed.map
          (fun b => (b, inactivationHook mh is_active (HookProcess.callback c))) } := by
  intro mh is_active c btn st
  simp only [ModifierHotkey.on_release, List.foldl_cons, List.foldl_nil]
  rw [foldl_register_press_const, foldl_register_release_const]
  simp [ButtonArgElement.direct, register_hotkey_on_press, register_hotkey_on_release,
    List.append_assoc]

/-- Claim C5: every remap registration whose argument list contains an
Inversion-tagged element fails (panics); it installs Remap hooks only
for the Direct elements preceding the first Inversion element, so the
Inversion element itself never gets one and is never silently accepted.
Stated for both Hotkey.remap and ModifierHotkey.remap. -/
theorem remap_inversion_fails :
    ∀ (mh : ModifierHotkey) (behavior : Button) (args : List ButtonArgElement)
      (st : HotkeyStorage),
    ButtonArgElementTag.Inversion ∈ args.map ButtonArgElement.tag →
    (Hotkey.remap args behavior st).2 = true
    ∧ (Hotkey.remap args behavior st).1.remap =
      st.remap ++ (args.takeWhile
          (fun a => decide (a.tag = ButtonArgElementTag.Direct))).map
        (fun a => (a.button, { modifier_keys := Hotkey.modifier_keys, behavior := behavior }))
    ∧ (ModifierHotkey.remap mh args behavior st).2 = true
    ∧ (ModifierHotkey.remap mh args behavior st).1.remap =
      st.remap ++ (args.takeWhile
          (fun a => decide (a.tag = ButtonArgElementTag.Direct))).map
        (fun a => (a.button, { modifier_keys := mh.modifier_keys, behavior := behavior })) := by
  intro mh behavior args st hmem
  obtain ⟨h1, h2⟩ := remapRun_inversion Hotkey.modifier_keys behavior args st hmem
  obtain ⟨h3, h4⟩ := remapRun_inversion mh.modifier_keys behavior args st hmem
  exact ⟨h1, h2, h3, h4⟩

/-- Witness for C5 at the argument list consisting of one
Inversion-tagged element. -/
theorem remap_inversion_fails_witness :
    (Hotkey.remap [ButtonArgElement.inversion Button.A] Button.B HotkeyStorage.empty).2 = true
    ∧ (Hotkey.remap [ButtonArgElement.inversion Button.A] Button.B HotkeyStorage.empty).1.remap =
      HotkeyStorage.empty.remap
        ++ ([ButtonArgElement.inversion Button.A].takeWhile
            (fun a => decide (a.tag = ButtonArgElementTag.Direct))).map
          (fun a => (a.button, { modifier_keys := Hotkey.modifier_keys, behavior := Button.B }))
    ∧ (ModifierHotkey.remap
        { modifier_keys := { pressed := [Button.LShift], released := [] },
          native_event_operation := NativeEventOperation.Block }
        [ButtonArgElement.inversion Button.A] Button.B HotkeyStorage.empty).2 = true
    ∧ (ModifierHotkey.remap
        { modifier_keys := { pressed := [Button.LShift], released := [] },
          native_event_operation := NativeEventOperation.Block }
        [ButtonArgElement.inversion Button.A] Button.B HotkeyStorage.empty).1.remap =
      HotkeyStorage.empty.remap
        ++ ([ButtonArgElement.inversion Button.A].takeWhile
            (fun a => decide (a.tag = ButtonArgElementTag.Direct))).map
          (fun a => (a.button,
            { modifier_keys := { pressed := [Button.LShift], released := [] },
              behavior := Button.B })) :=
  remap_inversion_fails
    { modifier_keys := { pressed := [Button.LShift], released := [] },
      native_event_operation := NativeEventOperation.Block }
    Button.B [ButtonArgElement.inversion Button.A] HotkeyStorage.empty (by decide)

/-- Claim C6: an Inversion-tagged element makes on_press register in the
on-release store and on_release register in the on-press store, while a
Direct-tagged element registers in the store matching the called method;
shown for Hotkey.on_press, Hotkey.on_release and
ModifierHotkey.on_press. -/
theorem inversion_swaps_press_and_release_stores :
    ∀ (b : Button) (process : HookProcess) (st : HotkeyStorage) (mh : ModifierHotkey),
    (Hotkey.on_press [ButtonArgElement.direct b] process st).hotkey_on_press
      = st.hotkey_on_press ++ [(b, { condition := HotkeyCondition.Any, process := process,
                                     native_event_operation := NativeEventOperation.dflt })]
    ∧ (Hotkey.on_press [ButtonArgElement.direct b] process st).hotkey_on_release
      = st.hotkey_on_release
    ∧ (Hotkey.on_press [ButtonArgElement.inversion b] process st).hotkey_on_release
      = st.hotkey_on_release ++ [(b, { condition := HotkeyCondition.Any, process := process,
                                       native_event_operation := NativeEventOperation.dflt })]
    ∧ (Hotkey.on_press [ButtonArgElement.inversion b] process st).hotkey_on_press
      = st.hotkey_on_press
    ∧ (Hotkey.on_release [ButtonArgElement.direct b] process st).hotkey_on_release
      = st.hotkey_on_release ++ [(b, { condition := HotkeyCondition.Any, process := process,
                                       native_event_operation := NativeEventOperation.dflt })]
    ∧ (Hotkey.on_release [ButtonArgElement.direct b] process st).hotkey_on_press
      = st.hotkey_on_press
    ∧ (Hotkey.on_release [ButtonArgElement.inversion b] process st).hotkey_on_press
      = st.hotkey_on_press ++ [(b, { condition := HotkeyCondition.Any, process := process,
                                     native_event_operation := NativeEventOperation.dflt })]
    ∧ (Hotkey.on_release [ButtonArgElement.inversion b] process st).hotkey_on_release
      = st.hotkey_on_release
    ∧ (ModifierHotkey.on_press mh [ButtonArgElement.direct b] process st).hotkey_on_press
      = st.hotkey_on_press
        ++ [(b, { condition := HotkeyCondition.Modifier mh.modifier_keys, process := process,
                  native_event_operation := mh.native_event_operation })]
    ∧ (ModifierHotkey.on_press mh [ButtonArgElement.direct b] process st).hotkey_on_release
      = st.hotkey_on_release
    ∧ (ModifierHotkey.on_press mh [ButtonArgElement.inversion b] process st).hotkey_on_release
      = st.hotkey_on_release
        ++ [(b, { condition := HotkeyCondition.Modifier mh.modifier_keys, process := process,
                  native_event_operation := mh.native_event_operation })]
    ∧ (ModifierHotkey.on_press mh [ButtonArgElement.inversion b] process st).hotkey_on_press
      = st.hotkey_on_press := by
  intro b process st mh
  exact ⟨rfl, rfl, rfl, rfl, rfl, rfl, rfl, rfl, rfl, rfl, rfl, rfl⟩

/-- Claim C7: every KEYBDINPUT built by send_key_input carries the
origin tag in dwExtraInfo, and when the OS loops the emission back to
hook_proc the event short-circuits: the verdict is pass-to-next-hook
(Dispatch), the handler is never invoked and no callback is spawned. -/
theorem injector_emission_round_trip :
    ∀ (vkOfKey : Button → Nat) (keyOfVk : Nat → Button) (key : Button)
      (flags osFlags : Nat) (handler : EventHandlerState ButtonEvent),
    (send_key_input vkOfKey key flags).dwExtraInfo = DW_EXTRA_INFO
    ∧ hook_proc keyOfVk handler (loopback (send_key_input vkOfKey key flags) osFlags)
      = { verdict := HookProcVerdict.passedToNextHook, emitted := none, spawned := none } := by
  intro vkOfKey keyOfVk key flags osFlags handler
  refine ⟨rfl, ?_⟩
  simp [hook_proc, loopback, send_key_input, DW_EXTRA_INFO]

/-- Claim C8: emit computes the verdict from the callback's
get_event_block before handing the callback to a separate task, and the
verdict does not depend on the callback's body: two generators whose
callbacks agree on event_block (but may have arbitrary bodies) yield
equal verdicts for every event. -/
theorem verdict_independent_of_callback_body :
    ∀ {E : Type} (g1 g2 : EventCallbackGenerator E) (e : E),
    (∀ x, (g1 x).event_block = (g2 x).event_block) →
    (emit (some g1) e).event_block = (g1 e).event_block
    ∧ (emit (some g1) e).spawned = some (g1 e)
    ∧ (emit (some g1) e).event_block = (emit (some g2) e).event_block := by
  intro E g1 g2 e hg
  exact ⟨rfl, rfl, hg e⟩

/-- Witness for C8: two generators with the same EventBlock but
different callback bodies. -/
theorem verdict_independent_of_callback_body_witness :
    (emit (some (fun _ : ButtonEvent =>
        { callBody := 0, event_block := EventBlock.Block }))
      { target := Button.A, action := ButtonAction.Press }).event_block =
      ((fun _ : ButtonEvent => { callBody := 0, event_block := EventBlock.Block })
        { target := Button.A, action := ButtonAction.Press } : EventCallback).event_block
    ∧ (emit (some (fun _ : ButtonEvent =>
        { callBody := 0, event_block := EventBlock.Block }))
      { target := Button.A, action := ButtonAction.Press }).spawned =
      some ((fun _ : ButtonEvent => { callBody := 0, event_block := EventBlock.Block })
        { target := Button.A, action := ButtonAction.Press })
    ∧ (emit (some (fun _ : ButtonEvent =>
        { callBody := 0, event_block := EventBlock.Block }))
      { target := Button.A, action := ButtonAction.Press }).event_block =
      (emit (some (fun _ : ButtonEvent =>
        { callBody := 42, event_block := EventBlock.Block }))
      { target := Button.A, action := ButtonAction.Press }).event_block :=
  verdict_independent_of_callback_body
    (fun _ : ButtonEvent => ({ callBody := 0, event_block := EventBlock.Block } : EventCallback))
    (fun _ : ButtonEvent => ({ callBody := 42, event_block := EventBlock.Block } : EventCallback))
    { target := Button.A, action := ButtonAction.Press }
    (fun _ => rfl)

/-- Claim C9: register_handler stores the new generator, silently
discarding whatever was registered before, and emit afterwards behaves
exactly as with the new generator alone. -/
theorem register_handler_replaces_generator :
    ∀ {E : Type} (g : EventCallbackGenerator E) (s : EventHandlerState E) (e : E),
    register_handler g s = some g
    ∧ emit (register_handler g s) e = emit (some g) e
    ∧ (emit (register_handler g s) e).event_block = (g e).event_block := by
  intro E g s e
  exact ⟨rfl, rfl, rfl⟩

/-- Claim C10: remap registration is not atomic on failure: remapping
the list Direct(A), Inversion(B) to C panics, yet leaves the Remap hook
for the preceding Direct element A in the storage; likewise for
ModifierHotkey.remap. -/
theorem remap_partial_mutation_on_panic :
    Hotkey.remap [ButtonArgElement.direct Button.A, ButtonArgElement.inversion Button.B]
      Button.C HotkeyStorage.empty =
      ({ HotkeyStorage.empty with
         remap := [(Button.A, { modifier_keys := Hotkey.modifier_keys,
                                behavior := Button.C })] }, true)
    ∧ ModifierHotkey.remap
        { modifier_keys := { pressed := [Button.LShift], released := [] },
          native_event_operation := NativeEventOperation.Block }
        [ButtonArgElement.direct Button.A, ButtonArgElement.inversion Button.B]
        Button.C HotkeyStorage.empty =
      ({ HotkeyStorage.empty with
         remap := [(Button.A, { modifier_keys := { pressed := [Button.LShift], released := [] },
                                behavior := Button.C })] }, true) :=
  ⟨rfl, rfl⟩
